import Mathlib

/-!
# kubedash — snapshot-diff and refresh-coordination core, shallow embedding

This file embeds, in Lean 4, the parts of the kubedash source that the
verified claims are about:

* the diff engine `StateCache.Compare` (`cmd` package, state-cache file),
* the indicator classifier `GetPodIndicator` (`cmd/client.go`),
* the pod-info extraction `GetPodInfo`,
* the indicator sort `SortPodIndicators`,
* the view filter `filterAndTransformData` (`cmd/k8s_data_base.go`),
* the refresh coordinator of the `App` event loop (ticker / manual trigger /
  background retry).

Go maps are modelled as association lists (`List (String × α)`) whose list
order stands for the map's iteration order; Go wall-clock timestamps
(`time.Now`) are not modelled (no claim depends on them); `interface{}`
payloads are modelled by a closed sum (`GoDyn`) so the defensive runtime
type assertions of the source can be expressed.
-/

namespace Kubedash

/-! ## Go map primitives over association lists -/

/-- Go map read `m[k]`: the first binding of `k`, if any. -/
def goLookup {α : Type} (m : List (String × α)) (k : String) : Option α :=
  match m with
  | [] => none
  | (k', v) :: rest => if k' = k then some v else goLookup rest k

/-- Go map write `m[k] = v`: replace the binding in place, else append. -/
def goInsert {α : Type} (m : List (String × α)) (k : String) (v : α) :
    List (String × α) :=
  match m with
  | [] => [(k, v)]
  | (k', v') :: rest =>
      if k' = k then (k, v) :: rest else (k', v') :: goInsert rest k v

/-- Go `delete(m, k)`. -/
def goDelete {α : Type} (m : List (String × α)) (k : String) :
    List (String × α) :=
  match m with
  | [] => []
  | (k', v') :: rest =>
      if k' = k then goDelete rest k else (k', v') :: goDelete rest k

/-- Go `map[string]bool` read `m[k]`: missing keys read as `false`. -/
def goLookupBool (m : List (String × Bool)) (k : String) : Bool :=
  match goLookup m k with
  | some b => b
  | none => false

/-- Well-formedness of a Go map image: each key bound at most once. -/
def keysUnique {α : Type} (m : List (String × α)) : Prop :=
  (m.map Prod.fst).Nodup

theorem goLookup_delete_self {α : Type} (m : List (String × α)) (k : String) :
    goLookup (goDelete m k) k = none := by
  induction m with
  | nil => simp [goDelete, goLookup]
  | cons hd tl ih =>
      obtain ⟨k', v'⟩ := hd
      by_cases h : k' = k
      · simpa [goDelete, h] using ih
      · simpa [goDelete, goLookup, h] using ih

theorem goLookup_insert_self {α : Type} (m : List (String × α)) (k : String)
    (v : α) : goLookup (goInsert m k v) k = some v := by
  induction m with
  | nil => simp [goInsert, goLookup]
  | cons hd tl ih =>
      obtain ⟨k', v'⟩ := hd
      by_cases h : k' = k
      · simp [goInsert, h, goLookup]
      · simpa [goInsert, goLookup, h] using ih

theorem goLookup_self_of_mem {α : Type} {m : List (String × α)}
    (hm : keysUnique m) {k : String} {v : α} (hmem : (k, v) ∈ m) :
    goLookup m k = some v := by
  induction m with
  | nil => cases hmem
  | cons hd tl ih =>
      obtain ⟨k', v'⟩ := hd
      rcases List.mem_cons.mp hmem with heq | htl
      · cases heq
        simp [goLookup]
      · have hk : k' ≠ k := by
          intro h
          subst h
          have : k' ∈ tl.map Prod.fst :=
            List.mem_map.mpr ⟨(k', v), htl, rfl⟩
          exact (List.nodup_cons.mp hm).1 this
        have htl' : keysUnique tl := (List.nodup_cons.mp hm).2
        simpa [goLookup, hk] using ih htl' htl

theorem goLookup_isSome_of_mem {α : Type} {m : List (String × α)}
    {k : String} {v : α} (hmem : (k, v) ∈ m) :
    (goLookup m k).isSome = true := by
  induction m with
  | nil => cases hmem
  | cons hd tl ih =>
      obtain ⟨k', v'⟩ := hd
      rcases List.mem_cons.mp hmem with heq | htl
      · cases heq
        simp [goLookup]
      · by_cases hk : k' = k
        · simp [goLookup, hk]
        · simpa [goLookup, hk] using ih htl

/-! ## Diff-engine data model

Mirrors `ContainerInfo`, `PodInfo`, `NodeData`, `ResourceState` and
`ChangeEvent` from the source.  `NodeData.Age`, `NodeData.PodCount`,
`NodeData.PodIndicators` are display strings produced by the view filter;
`ResourceState.Data` is Go's `interface{}` (`GoDyn` below) or `nil`. -/

structure ContainerInfo where
  Status : String
  RestartCount : Int
deriving DecidableEq, Repr

structure PodInfo where
  Name : String
  Status : String
  RestartCount : Int
  ContainerInfo : List (String × ContainerInfo)
deriving DecidableEq, Repr

structure NodeData where
  Name : String
  Status : String
  Version : String
  Age : String
  PodCount : String
  PodIndicators : String
  Pods : List (String × PodInfo)
  TotalPods : Int
deriving DecidableEq, Repr

/-- A dynamically-typed (`interface{}`) cache payload.  The source stores
`NodeData` here, but the cache accepts any value, which is what makes the
defensive type assertions in `Compare` reachable; `raw` stands for any
non-`NodeData` payload. -/
inductive GoDyn where
  | nodeData (d : NodeData)
  | raw (tag : String)
deriving DecidableEq, Repr

/-- Go's type assertion `x.(NodeData)`. -/
def GoDyn.asNodeData : Option GoDyn → Option NodeData
  | some (GoDyn.nodeData d) => some d
  | _ => none

/-- `ResourceState` from the source, minus the wall-clock `Timestamp`
(whose value is never read by `Compare`). -/
structure ResourceState where
  Generation : Int := 0
  Data : Option GoDyn
  Metadata : List (String × String) := []
deriving DecidableEq, Repr

/-- An `interface{}` value carried in a change event's
`OldValue`/`NewValue`: the source stores `nil`, strings, ints, or a whole
data payload there. -/
inductive GoValue where
  | nil
  | str (s : String)
  | int (n : Int)
  | dyn (d : GoDyn)
deriving DecidableEq, Repr

/-- Lift an `interface{}` payload (possibly `nil`) into an event value. -/
def GoValue.ofData : Option GoDyn → GoValue
  | none => GoValue.nil
  | some d => GoValue.dyn d

/-- `ChangeEvent` from the source, minus the wall-clock `Timestamp`.
Fields left unset in a Go composite literal are zero values
(`""` / `nil`). -/
structure ChangeEvent where
  ResourceType : String
  ResourceName : String
  ChangeType : String
  Field : String
  OldValue : GoValue
  NewValue : GoValue
deriving DecidableEq, Repr

/-! ## `StateCache.Compare`

A faithful translation of the source's `Compare`, split into the loops the
source performs.  The cache (Go `map[string]ResourceState`) is passed and
returned explicitly; event order follows the source's iteration order. -/

/-- The three node-level field comparisons (`Status`, `Version`,
`PodCount`). -/
def nodeFieldChanges (key : String) (oldData newData : NodeData) :
    List ChangeEvent :=
  (if oldData.Status ≠ newData.Status then
    [{ ResourceType := "Node", ResourceName := key, ChangeType := "Modified",
       Field := "Status", OldValue := GoValue.str oldData.Status,
       NewValue := GoValue.str newData.Status }]
   else []) ++
  (if oldData.Version ≠ newData.Version then
    [{ ResourceType := "Node", ResourceName := key, ChangeType := "Modified",
       Field := "Version", OldValue := GoValue.str oldData.Version,
       NewValue := GoValue.str newData.Version }]
   else []) ++
  (if oldData.PodCount ≠ newData.PodCount then
    [{ ResourceType := "Node", ResourceName := key, ChangeType := "Modified",
       Field := "PodCount", OldValue := GoValue.str oldData.PodCount,
       NewValue := GoValue.str newData.PodCount }]
   else [])

/-- Inner loop over the new pod's containers: added / modified
containers. -/
def containerChanges (key podName : String)
    (oldContainers : List (String × ContainerInfo)) :
    List (String × ContainerInfo) → List ChangeEvent
  | [] => []
  | (containerName, newContainer) :: rest =>
      (match goLookup oldContainers containerName with
       | none =>
          [{ ResourceType := "Container",
             ResourceName := key ++ "/" ++ podName ++ "/" ++ containerName,
             ChangeType := "Added", Field := "Status",
             OldValue := GoValue.nil,
             NewValue := GoValue.str newContainer.Status }]
       | some oldContainer =>
          (if oldContainer.Status ≠ newContainer.Status then
            [{ ResourceType := "Container",
               ResourceName := key ++ "/" ++ podName ++ "/" ++ containerName,
               ChangeType := "Modified", Field := "Status",
               OldValue := GoValue.str oldContainer.Status,
               NewValue := GoValue.str newContainer.Status }]
           else []) ++
          (if oldContainer.RestartCount ≠ newContainer.RestartCount then
            [{ ResourceType := "Container",
               ResourceName := key ++ "/" ++ podName ++ "/" ++ containerName,
               ChangeType := "Modified", Field := "RestartCount",
               OldValue := GoValue.int oldContainer.RestartCount,
               NewValue := GoValue.int newContainer.RestartCount }]
           else [])) ++
      containerChanges key podName oldContainers rest

/-- Loop over the old pod's containers: removed containers.  (The source
re-indexes the old map to fetch the status; with a map that is the same
value as the iterated one.) -/
def removedContainerChanges (key podName : String)
    (newContainers : List (String × ContainerInfo)) :
    List (String × ContainerInfo) → List ChangeEvent
  | [] => []
  | (containerName, oldContainer) :: rest =>
      (if (goLookup newContainers containerName).isSome then []
       else
        [{ ResourceType := "Container",
           ResourceName := key ++ "/" ++ podName ++ "/" ++ containerName,
           ChangeType := "Removed", Field := "Status",
           OldValue := GoValue.str oldContainer.Status,
           NewValue := GoValue.nil }]) ++
      removedContainerChanges key podName newContainers rest

/-- Body of the new-pods loop for a pod present in both snapshots:
`Status` / `RestartCount` fields, then the two container loops. -/
def podPairChanges (key podName : String) (oldPod newPod : PodInfo) :
    List ChangeEvent :=
  (if oldPod.Status ≠ newPod.Status then
    [{ ResourceType := "Pod", ResourceName := key ++ "/" ++ podName,
       ChangeType := "Modified", Field := "Status",
       OldValue := GoValue.str oldPod.Status,
       NewValue := GoValue.str newPod.Status }]
   else []) ++
  (if oldPod.RestartCount ≠ newPod.RestartCount then
    [{ ResourceType := "Pod", ResourceName := key ++ "/" ++ podName,
       ChangeType := "Modified", Field := "RestartCount",
       OldValue := GoValue.int oldPod.RestartCount,
       NewValue := GoValue.int newPod.RestartCount }]
   else []) ++
  containerChanges key podName oldPod.ContainerInfo newPod.ContainerInfo ++
  removedContainerChanges key podName newPod.ContainerInfo
    oldPod.ContainerInfo

/-- Loop over the new snapshot's pods: added pods and pod-pair diffs. -/
def podChanges (key : String) (oldPods : List (String × PodInfo)) :
    List (String × PodInfo) → List ChangeEvent
  | [] => []
  | (podName, newPod) :: rest =>
      (match goLookup oldPods podName with
       | none =>
          [{ ResourceType := "Pod", ResourceName := key ++ "/" ++ podName,
             ChangeType := "Added", Field := "Status",
             OldValue := GoValue.nil,
             NewValue := GoValue.str newPod.Status }]
       | some oldPod => podPairChanges key podName oldPod newPod) ++
      podChanges key oldPods rest

/-- Loop over the old snapshot's pods: removed pods. -/
def removedPodChanges (key : String) (newPods : List (String × PodInfo)) :
    List (String × PodInfo) → List ChangeEvent
  | [] => []
  | (podName, oldPod) :: rest =>
      (if (goLookup newPods podName).isSome then []
       else
        [{ ResourceType := "Pod", ResourceName := key ++ "/" ++ podName,
           ChangeType := "Removed", Field := "Status",
           OldValue := GoValue.str oldPod.Status,
           NewValue := GoValue.nil }]) ++
      removedPodChanges key newPods rest

/-- `StateCache.Compare`: returns the emitted events and the cache after
the call.  Note the source `return changes` inside the two failed type
assertions exits *before* the final cache update, so the cache is left
untouched on that path. -/
def StateCache.Compare (cache : List (String × ResourceState))
    (key : String) (newState : ResourceState) :
    List ChangeEvent × List (String × ResourceState) :=
  let updated : List (String × ResourceState) :=
    if newState.Data ≠ none then goInsert cache key newState
    else goDelete cache key
  match goLookup cache key with
  | none =>
      ([{ ResourceType := "Node", ResourceName := key,
          ChangeType := "Added", Field := "",
          OldValue := GoValue.nil,
          NewValue := GoValue.ofData newState.Data }], updated)
  | some oldState =>
      if newState.Data = none then
        ([{ ResourceType := "Node", ResourceName := key,
            ChangeType := "Removed", Field := "",
            OldValue := GoValue.ofData oldState.Data,
            NewValue := GoValue.nil }], updated)
      else
        match GoDyn.asNodeData oldState.Data with
        | none => ([], cache)
        | some oldData =>
            match GoDyn.asNodeData newState.Data with
            | none => ([], cache)
            | some newData =>
                (nodeFieldChanges key oldData newData ++
                 podChanges key oldData.Pods newData.Pods ++
                 removedPodChanges key newData.Pods oldData.Pods,
                 updated)

/-! ### Diff-engine lemmas -/

theorem containerChanges_self_nil (key podName : String)
    (src : List (String × ContainerInfo)) :
    ∀ l : List (String × ContainerInfo),
      (∀ p ∈ l, goLookup src p.1 = some p.2) →
      containerChanges key podName src l = [] := by
  intro l
  induction l with
  | nil => intro _; rfl
  | cons hd tl ih =>
      intro h
      obtain ⟨cn, c⟩ := hd
      have hhd : goLookup src cn = some c := h (cn, c) (List.mem_cons_self _ _)
      have htl : ∀ p ∈ tl, goLookup src p.1 = some p.2 := fun p hp =>
        h p (List.mem_cons_of_mem _ hp)
      simp [containerChanges, hhd, ih htl]

theorem removedContainerChanges_self_nil (key podName : String)
    (src : List (String × ContainerInfo)) :
    ∀ l : List (String × ContainerInfo),
      (∀ p ∈ l, (goLookup src p.1).isSome = true) →
      removedContainerChanges key podName src l = [] := by
  intro l
  induction l with
  | nil => intro _; rfl
  | cons hd tl ih =>
      intro h
      obtain ⟨cn, c⟩ := hd
      have hhd : (goLookup src cn).isSome = true :=
        h (cn, c) (List.mem_cons_self _ _)
      have htl : ∀ p ∈ tl, (goLookup src p.1).isSome = true := fun p hp =>
        h p (List.mem_cons_of_mem _ hp)
      simp [removedContainerChanges, hhd, ih htl]

/-- Comparing a pod snapshot against itself produces no events (requires
the container map to be a genuine map, i.e. unique keys). -/
theorem podPairChanges_self (key podName : String) (pi : PodInfo)
    (hwf : keysUnique pi.ContainerInfo) :
    podPairChanges key podName pi pi = [] := by
  have hc : containerChanges key podName pi.ContainerInfo
      pi.ContainerInfo = [] := by
    apply containerChanges_self_nil
    intro p hp
    exact goLookup_self_of_mem hwf (by simpa using hp)
  have hr : removedContainerChanges key podName pi.ContainerInfo
      pi.ContainerInfo = [] := by
    apply removedContainerChanges_self_nil
    intro p hp
    exact goLookup_isSome_of_mem (v := p.2) (by simpa using hp)
  simp [podPairChanges, hc, hr]

/-! ### Sample data for concrete witnesses -/

def samplePod1 : PodInfo :=
  { Name := "p1", Status := "Running", RestartCount := 0,
    ContainerInfo := [] }

def samplePod2 : PodInfo :=
  { Name := "p2", Status := "Pending", RestartCount := 0,
    ContainerInfo := [] }

def sampleNode1 : NodeData :=
  { Name := "n1", Status := "Ready", Version := "v1.29", Age := "3d",
    PodCount := "1", PodIndicators := "", Pods := [("p1", samplePod1)],
    TotalPods := 1 }

def sampleNodeEmpty : NodeData :=
  { Name := "n", Status := "Ready", Version := "v", Age := "1h",
    PodCount := "0", PodIndicators := "", Pods := [], TotalPods := 0 }

def sampleNodeEmptyNotReady : NodeData :=
  { Name := "n", Status := "NotReady", Version := "v", Age := "1h",
    PodCount := "0", PodIndicators := "", Pods := [], TotalPods := 0 }

/-! ### Claim theorems for the diff engine -/

/-- C1: with node key `n1` cached holding exactly pod `p1`, comparing
against the same node data whose pod map is `{p1, p2}` emits exactly one
event: a Pod `Added` with resource key `"n1/p2"` — no events for `p1` and
no node-level `Modified` events. -/
theorem C1_compare_added_pod_only (n1 p1 p2 : String) (pi1 pi2 : PodInfo)
    (nd : NodeData) (hpods : nd.Pods = [(p1, pi1)]) (hne : p1 ≠ p2)
    (hwf : keysUnique pi1.ContainerInfo) :
    (StateCache.Compare [(n1, { Data := some (GoDyn.nodeData nd) })] n1
        { Data := some (GoDyn.nodeData
            { nd with Pods := [(p1, pi1), (p2, pi2)] }) }).1 =
      [{ ResourceType := "Pod", ResourceName := n1 ++ "/" ++ p2,
         ChangeType := "Added", Field := "Status",
         OldValue := GoValue.nil, NewValue := GoValue.str pi2.Status }] := by
  have hlk2 : goLookup [(p1, pi1)] p2 = none := by
    simp [goLookup, hne]
  simp [StateCache.Compare, goLookup, GoDyn.asNodeData, nodeFieldChanges,
    hpods, podChanges, hlk2, removedPodChanges,
    podPairChanges_self n1 p1 pi1 hwf]

theorem C1_compare_added_pod_only_witness :
    (StateCache.Compare [("n1", { Data := some (GoDyn.nodeData sampleNode1) })]
        "n1"
        { Data := some (GoDyn.nodeData
            { sampleNode1 with
                Pods := [("p1", samplePod1), ("p2", samplePod2)] }) }).1 =
      [{ ResourceType := "Pod", ResourceName := "n1" ++ "/" ++ "p2",
         ChangeType := "Added", Field := "Status",
         OldValue := GoValue.nil,
         NewValue := GoValue.str samplePod2.Status }] :=
  C1_compare_added_pod_only "n1" "p1" "p2" samplePod1 samplePod2 sampleNode1
    rfl (by decide) (by simp [keysUnique, samplePod1])

/-- C6: with a non-nil state cached under `k`, `Compare k {data := nil}`
emits exactly one `Removed` event carrying the old data as `oldValue`,
deletes the cache entry, and a subsequent `Compare k {data := S2}` with
non-nil `S2` emits an `Added` event (not `Modified`). -/
theorem C6_compare_removal (cache : List (String × ResourceState))
    (k : String) (st : ResourceState) (d : GoDyn)
    (hlk : goLookup cache k = some st) (hd : st.Data = some d)
    (S2 : ResourceState) (d2 : GoDyn) (hS2 : S2.Data = some d2) :
    (StateCache.Compare cache k { Data := none }).1 =
      [{ ResourceType := "Node", ResourceName := k,
         ChangeType := "Removed", Field := "",
         OldValue := GoValue.dyn d, NewValue := GoValue.nil }] ∧
    goLookup (StateCache.Compare cache k { Data := none }).2 k = none ∧
    (StateCache.Compare (StateCache.Compare cache k { Data := none }).2
        k S2).1 =
      [{ ResourceType := "Node", ResourceName := k,
         ChangeType := "Added", Field := "",
         OldValue := GoValue.nil, NewValue := GoValue.dyn d2 }] := by
  have h1 : StateCache.Compare cache k { Data := none } =
      ([{ ResourceType := "Node", ResourceName := k,
          ChangeType := "Removed", Field := "",
          OldValue := GoValue.dyn d, NewValue := GoValue.nil }],
        goDelete cache k) := by
    simp [StateCache.Compare, hlk, hd, GoValue.ofData]
  refine ⟨by rw [h1], ?_, ?_⟩
  · rw [h1]
    exact goLookup_delete_self cache k
  · rw [h1]
    simp [StateCache.Compare, goLookup_delete_self, hS2, GoValue.ofData]

theorem C6_compare_removal_witness :
    (StateCache.Compare [("k", { Data := some (GoDyn.raw "v0") })] "k"
        { Data := none }).1 =
      [{ ResourceType := "Node", ResourceName := "k",
         ChangeType := "Removed", Field := "",
         OldValue := GoValue.dyn (GoDyn.raw "v0"),
         NewValue := GoValue.nil }] ∧
    goLookup (StateCache.Compare [("k", { Data := some (GoDyn.raw "v0") })]
        "k" { Data := none }).2 "k" = none ∧
    (StateCache.Compare
        (StateCache.Compare [("k", { Data := some (GoDyn.raw "v0") })] "k"
          { Data := none }).2 "k"
        { Data := some (GoDyn.raw "v1") }).1 =
      [{ ResourceType := "Node", ResourceName := "k",
         ChangeType := "Added", Field := "",
         OldValue := GoValue.nil,
         NewValue := GoValue.dyn (GoDyn.raw "v1") }] :=
  C6_compare_removal [("k", { Data := some (GoDyn.raw "v0") })] "k"
    { Data := some (GoDyn.raw "v0") } (GoDyn.raw "v0") rfl rfl
    { Data := some (GoDyn.raw "v1") } (GoDyn.raw "v1") rfl

/-- C9 as stated is false: when the cached payload fails the defensive
`NodeData` type assertion, `Compare` returns early *before* the final
cache update, so the cache keeps the stale entry instead of `newState`.
Concrete input: key `"k"` cached with a non-`NodeData` payload, new state
carrying a `NodeData`. -/
theorem C9_counterexample :
    (StateCache.Compare [("k", { Data := some (GoDyn.raw "stale") })] "k"
        { Data := some (GoDyn.nodeData sampleNodeEmpty) }).2 =
      [("k", { Data := some (GoDyn.raw "stale") })] ∧
    ({ Data := some (GoDyn.nodeData sampleNodeEmpty) } :
        ResourceState).Data ≠ none ∧
    goLookup (StateCache.Compare
        [("k", { Data := some (GoDyn.raw "stale") })] "k"
        { Data := some (GoDyn.nodeData sampleNodeEmpty) }).2 "k" ≠
      some { Data := some (GoDyn.nodeData sampleNodeEmpty) } := by
  refine ⟨by rfl, by decide, by decide⟩

/-- C9 amended: after `Compare k newState` with non-nil data the cache
entry for `k` equals `newState` — including when zero events are emitted —
*provided* the key was absent, or both the cached payload and the new
payload pass the `NodeData` type assertion.  (When an assertion fails the
source returns early and leaves the cache untouched.) -/
theorem C9_cache_tracks_new_state (cache : List (String × ResourceState))
    (k : String) (newState : ResourceState) (d : GoDyn)
    (hd : newState.Data = some d)
    (h : goLookup cache k = none ∨
      ∃ old nd nd', goLookup cache k = some old ∧
        old.Data = some (GoDyn.nodeData nd) ∧ d = GoDyn.nodeData nd') :
    goLookup (StateCache.Compare cache k newState).2 k = some newState := by
  rcases h with h | ⟨old, nd, nd', hlk, hod, hnd⟩
  · simp [StateCache.Compare, h, hd, goLookup_insert_self]
  · subst hnd
    simp [StateCache.Compare, hlk, hd, hod, GoDyn.asNodeData,
      goLookup_insert_self]

theorem C9_cache_tracks_new_state_witness :
    goLookup (StateCache.Compare
        [("k", { Data := some (GoDyn.nodeData sampleNodeEmpty) })] "k"
        { Data := some (GoDyn.nodeData sampleNodeEmptyNotReady) }).2 "k" =
      some { Data := some (GoDyn.nodeData sampleNodeEmptyNotReady) } :=
  C9_cache_tracks_new_state
    [("k", { Data := some (GoDyn.nodeData sampleNodeEmpty) })] "k"
    { Data := some (GoDyn.nodeData sampleNodeEmptyNotReady) }
    (GoDyn.nodeData sampleNodeEmptyNotReady) rfl
    (Or.inr ⟨_, _, _, rfl, rfl, rfl⟩)

/-- C10: `Compare k {data := nil}` on a key with no cached entry emits
exactly one `Added` event whose `newValue` is nil (not a `Removed` event,
not zero events), and afterwards the cache still has no entry for `k`. -/
theorem C10_compare_absent_nil (cache : List (String × ResourceState))
    (k : String) (h : goLookup cache k = none) :
    (StateCache.Compare cache k { Data := none }).1 =
      [{ ResourceType := "Node", ResourceName := k, ChangeType := "Added",
         Field := "", OldValue := GoValue.nil,
         NewValue := GoValue.nil }] ∧
    goLookup (StateCache.Compare cache k { Data := none }).2 k = none := by
  constructor
  · simp [StateCache.Compare, h, GoValue.ofData]
  · simp [StateCache.Compare, h, goLookup_delete_self]

theorem C10_compare_absent_nil_witness :
    (StateCache.Compare
        [("other", { Data := some (GoDyn.raw "x") })] "k"
        { Data := none }).1 =
      [{ ResourceType := "Node", ResourceName := "k", ChangeType := "Added",
         Field := "", OldValue := GoValue.nil,
         NewValue := GoValue.nil }] ∧
    goLookup (StateCache.Compare
        [("other", { Data := some (GoDyn.raw "x") })] "k"
        { Data := none }).2 "k" = none :=
  C10_compare_absent_nil [("other", { Data := some (GoDyn.raw "x") })] "k"
    (by decide)

/-! ## Constants (`cmd/constants.go`) -/

def PodIndicatorGreen : String := "[green]■[white] "
def PodIndicatorYellow : String := "[yellow]■[white] "
def PodIndicatorRed : String := "[red]■[white] "
def ColorTagRed : String := "[red]"
def ColorTagYellow : String := "[yellow]"

/-! ## Go `strings.Contains` on character lists -/

/-- Does `hay` start with `needle`? -/
def charsStartWith : List Char → List Char → Bool
  | _, [] => true
  | [], _ :: _ => false
  | a :: hay, b :: needle => a == b && charsStartWith hay needle

/-- Does `hay` contain `needle` as a contiguous run? -/
def charsContain (hay needle : List Char) : Bool :=
  if charsStartWith hay needle then true
  else
    match hay with
    | [] => false
    | _ :: t => charsContain t needle

/-- Go `strings.Contains`. -/
def goContains (s sub : String) : Bool := charsContain s.data sub.data

/-! ## Kubernetes input fragments

Just the parts of `corev1.Pod` / `corev1.Node` the embedded functions
read.  A container's `State` has at most one of the three pointers set in
practice; `noState` is the zero value with none set. -/

inductive ContainerState where
  | running
  | waiting (reason : String)
  | terminated (reason : String)
  | noState
deriving DecidableEq, Repr

structure ContainerStatus where
  Name : String
  Ready : Bool
  RestartCount : Int
  State : ContainerState
deriving DecidableEq, Repr

structure K8sPod where
  Name : String
  Namespace : String
  Phase : String
  ContainerStatuses : List ContainerStatus
  SpecContainers : List String
  DeletionTimestamp : Option Int
deriving DecidableEq, Repr

structure K8sNodeCondition where
  ConditionType : String  -- Go field `Type` (a Lean keyword)
  Status : String
deriving DecidableEq, Repr

structure K8sNode where
  Name : String
  Conditions : List K8sNodeCondition
  KubeletVersion : String
  CreationTimestamp : Int
deriving DecidableEq, Repr

/-! ## Indicator classifier — `GetPodIndicator` (`cmd/client.go`) -/

/-- The `for _, containerStatus := range pod.Status.ContainerStatuses`
loop: the first container that triggers a rule decides the indicator;
`none` when the loop falls through. -/
def scanContainerStatuses : List ContainerStatus → Option String
  | [] => none
  | cs :: rest =>
      if cs.Ready = false then
        some (match cs.State with
          | ContainerState.waiting reason =>
              if reason = "CrashLoopBackOff" ∨ reason = "Error" ∨
                  reason = "ImagePullBackOff" ∨ reason = "ErrImagePull" then
                PodIndicatorRed
              else PodIndicatorYellow
          | _ => PodIndicatorYellow)
      else if 0 < cs.RestartCount then some PodIndicatorYellow
      else
        match cs.State with
        | ContainerState.waiting _ => some PodIndicatorYellow
        | ContainerState.terminated _ => some PodIndicatorRed
        | _ => scanContainerStatuses rest

/-- `GetPodIndicator` from `cmd/client.go`: note `Pending` returns before
the container scan. -/
def GetPodIndicator (pod : K8sPod) : String :=
  if pod.Phase = "Failed" then PodIndicatorRed
  else if pod.Phase = "Pending" then PodIndicatorYellow
  else
    match scanContainerStatuses pod.ContainerStatuses with
    | some ind => ind
    | none =>
        if pod.ContainerStatuses.length = 0 ∧ pod.Phase = "Running" then
          PodIndicatorYellow
        else PodIndicatorGreen

/-! ## `GetPodInfo` -/

/-- Find the container status matching a spec container's name (first
match, like the indexed search in the source). -/
def findContainerStatus : List ContainerStatus → String → Option ContainerStatus
  | [], _ => none
  | cs :: rest, name =>
      if cs.Name = name then some cs else findContainerStatus rest name

/-- Display status of one container (`"Unknown"` when no status matched
or no state pointer is set). -/
def containerDisplayStatus : ContainerState → String
  | ContainerState.running => "Running"
  | ContainerState.waiting r => r
  | ContainerState.terminated r => r
  | ContainerState.noState => "Unknown"

/-- `GetPodInfo`: walks `pod.Spec.Containers`, accumulating the pod's
total restart count and the per-container info map. -/
def GetPodInfo (pod : K8sPod) : PodInfo :=
  let res := pod.SpecContainers.foldl
    (fun (acc : Int × List (String × ContainerInfo)) containerName =>
      match findContainerStatus pod.ContainerStatuses containerName with
      | none =>
          (acc.1, goInsert acc.2 containerName
            { Status := "Unknown", RestartCount := 0 })
      | some cs =>
          (acc.1 + cs.RestartCount, goInsert acc.2 containerName
            { Status := containerDisplayStatus cs.State,
              RestartCount := cs.RestartCount }))
    ((0 : Int), ([] : List (String × ContainerInfo)))
  { Name := pod.Name,
    Status := if pod.DeletionTimestamp.isSome then "Terminating"
              else pod.Phase,
    RestartCount := res.1,
    ContainerInfo := res.2 }

/-! ## `SortPodIndicators` (exchange sort over color priority)

The source runs `for i; for j > i: if priority(a[i]) > priority(a[j])
swap`.  For a fixed `i`, each swap writes the old `a[i]` at position `j`
(never revisited) and continues with the new `a[i]`; `selectMinIndicator`
is that inner loop with the current `a[i]` as accumulator, returning the
final `a[i]` and the rewritten suffix, and `SortPodIndicators` iterates it
over `i`. -/

/-- Color priority of an indicator string (red 0, yellow 1, green 2),
classified by substring as in the source. -/
def indicatorColorPriority (s : String) : Nat :=
  if goContains s ColorTagRed then 0
  else if goContains s ColorTagYellow then 1
  else 2

/-- Inner loop of the exchange sort at one outer index. -/
def selectMinIndicator : String → List String → String × List String
  | x, [] => (x, [])
  | x, y :: ys =>
      if indicatorColorPriority y < indicatorColorPriority x then
        ((selectMinIndicator y ys).1, x :: (selectMinIndicator y ys).2)
      else
        ((selectMinIndicator x ys).1, y :: (selectMinIndicator x ys).2)

theorem selectMinIndicator_length (x : String) (l : List String) :
    (selectMinIndicator x l).2.length = l.length := by
  induction l generalizing x with
  | nil => rfl
  | cons y ys ih =>
      by_cases h : indicatorColorPriority y < indicatorColorPriority x
      · simp [selectMinIndicator, h, ih]
      · simp [selectMinIndicator, h, ih]

/-- Outer loop of the exchange sort, with the remaining iteration count
made explicit (the source's outer loop runs at most `len` times and the
suffix shrinks by one per iteration, so `len` fuel always suffices). -/
def sortPodIndicatorsLoop : Nat → List String → List String
  | _, [] => []
  | 0, l => l
  | fuel + 1, x :: xs =>
      (selectMinIndicator x xs).1 ::
        sortPodIndicatorsLoop fuel (selectMinIndicator x xs).2

/-- `SortPodIndicators`: the exchange sort of the source. -/
def SortPodIndicators (l : List String) : List String :=
  sortPodIndicatorsLoop l.length l

theorem selectMinIndicator_swap_eq (x y : String) (ys : List String)
    (h : indicatorColorPriority y < indicatorColorPriority x) :
    selectMinIndicator x (y :: ys) =
      ((selectMinIndicator y ys).1, x :: (selectMinIndicator y ys).2) := by
  simp [selectMinIndicator, h]

theorem selectMinIndicator_keep_eq (x y : String) (ys : List String)
    (h : ¬ indicatorColorPriority y < indicatorColorPriority x) :
    selectMinIndicator x (y :: ys) =
      ((selectMinIndicator x ys).1, y :: (selectMinIndicator x ys).2) := by
  simp [selectMinIndicator, h]

theorem selectMinIndicator_perm (x : String) (l : List String) :
    ((selectMinIndicator x l).1 :: (selectMinIndicator x l).2).Perm
      (x :: l) := by
  induction l generalizing x with
  | nil => simp [selectMinIndicator]
  | cons y ys ih =>
      by_cases h : indicatorColorPriority y < indicatorColorPriority x
      · rw [selectMinIndicator_swap_eq x y ys h]
        exact (List.Perm.swap x _ _).trans ((ih y).cons x)
      · rw [selectMinIndicator_keep_eq x y ys h]
        exact ((List.Perm.swap y _ _).trans ((ih x).cons y)).trans
          (List.Perm.swap x y ys)

theorem selectMinIndicator_min (x : String) (l : List String) :
    indicatorColorPriority (selectMinIndicator x l).1 ≤
      indicatorColorPriority x ∧
    ∀ z ∈ (selectMinIndicator x l).2,
      indicatorColorPriority (selectMinIndicator x l).1 ≤
        indicatorColorPriority z := by
  induction l generalizing x with
  | nil => simp [selectMinIndicator]
  | cons y ys ih =>
      by_cases h : indicatorColorPriority y < indicatorColorPriority x
      · obtain ⟨h1, h2⟩ := ih y
        rw [selectMinIndicator_swap_eq x y ys h]
        refine ⟨le_trans h1 (le_of_lt h), ?_⟩
        intro z hz
        rcases List.mem_cons.mp hz with rfl | hz'
        · exact le_trans h1 (le_of_lt h)
        · exact h2 z hz'
      · obtain ⟨h1, h2⟩ := ih x
        rw [selectMinIndicator_keep_eq x y ys h]
        refine ⟨h1, ?_⟩
        intro z hz
        rcases List.mem_cons.mp hz with rfl | hz'
        · exact le_trans h1 (le_of_not_lt h)
        · exact h2 z hz'

theorem sortPodIndicatorsLoop_perm (fuel : Nat) (l : List String) :
    (sortPodIndicatorsLoop fuel l).Perm l := by
  induction fuel generalizing l with
  | zero => cases l <;> simp [sortPodIndicatorsLoop]
  | succ fuel ih =>
      cases l with
      | nil => simp [sortPodIndicatorsLoop]
      | cons x xs =>
          show ((selectMinIndicator x xs).1 ::
              sortPodIndicatorsLoop fuel (selectMinIndicator x xs).2).Perm
            (x :: xs)
          exact ((ih _).cons _).trans (selectMinIndicator_perm x xs)

theorem SortPodIndicators_perm (l : List String) :
    (SortPodIndicators l).Perm l :=
  sortPodIndicatorsLoop_perm l.length l

theorem sortPodIndicatorsLoop_sorted (fuel : Nat) :
    ∀ l : List String, l.length ≤ fuel →
      (sortPodIndicatorsLoop fuel l).Pairwise
        (fun a b => indicatorColorPriority a ≤ indicatorColorPriority b) := by
  induction fuel with
  | zero =>
      intro l hl
      have hnil : l = [] := List.length_eq_zero.mp (Nat.le_zero.mp hl)
      subst hnil
      simp [sortPodIndicatorsLoop]
  | succ fuel ih =>
      intro l hl
      cases l with
      | nil => simp [sortPodIndicatorsLoop]
      | cons x xs =>
          show ((selectMinIndicator x xs).1 ::
              sortPodIndicatorsLoop fuel (selectMinIndicator x xs).2).Pairwise _
          have hfit : (selectMinIndicator x xs).2.length ≤ fuel := by
            rw [selectMinIndicator_length]
            simpa using Nat.lt_succ_iff.mp (Nat.lt_of_lt_of_le
              (Nat.lt_succ_self _) (by simpa using hl))
          refine List.Pairwise.cons ?_ (ih _ hfit)
          intro b hb
          have hbmem : b ∈ (selectMinIndicator x xs).2 :=
            (sortPodIndicatorsLoop_perm _ _).mem_iff.mp hb
          exact (selectMinIndicator_min x xs).2 b hbmem

theorem SortPodIndicators_sorted (l : List String) :
    (SortPodIndicators l).Pairwise
      (fun a b => indicatorColorPriority a ≤ indicatorColorPriority b) :=
  sortPodIndicatorsLoop_sorted l.length l (Nat.le_refl _)

/-! ### Claim theorems for the indicator sort (C3) -/

/-- C3 counterexample: the exchange sort is not stable.  The two
distinguishable Warning-severity (yellow) indicators `"[yellow]a"` and
`"[yellow]b"` have equal severity, appear in that order in the input, yet
come back in reversed relative order once an Error-severity (red)
indicator follows them — the claim's stability guarantee fails on this
input. -/
theorem C3_counterexample :
    indicatorColorPriority "[yellow]a" = indicatorColorPriority "[yellow]b" ∧
    ("[yellow]a" : String) ≠ "[yellow]b" ∧
    SortPodIndicators ["[yellow]a", "[yellow]b", PodIndicatorRed] =
      [PodIndicatorRed, "[yellow]b", "[yellow]a"] := by
  decide

/-- C3 amended: `SortPodIndicators` returns a permutation of its input
ordered by severity — Error (red) first, then Warning (yellow), then OK
(green) — and the concrete input `[OK, Error, Warning, OK]` sorts to
`[Error, Warning, OK, OK]`; but the sort is an exchange sort and is *not*
stable, so two distinguishable indicators of equal severity may lose
their relative input order. -/
theorem C3_sort_by_severity (l : List String) :
    (SortPodIndicators l).Perm l ∧
    (SortPodIndicators l).Pairwise
      (fun a b => indicatorColorPriority a ≤ indicatorColorPriority b) ∧
    SortPodIndicators [PodIndicatorGreen, PodIndicatorRed,
        PodIndicatorYellow, PodIndicatorGreen] =
      [PodIndicatorRed, PodIndicatorYellow, PodIndicatorGreen,
        PodIndicatorGreen] :=
  ⟨SortPodIndicators_perm l, SortPodIndicators_sorted l, by decide⟩

/-! ### Claim theorems for the indicator classifier (C5) -/

/-- A container status that is not ready and waiting with a fatal
reason. -/
def crashStatus : ContainerStatus :=
  { Name := "c", Ready := false, RestartCount := 0,
    State := ContainerState.waiting "CrashLoopBackOff" }

/-- A ready, running container status with no restarts. -/
def healthyStatus : ContainerStatus :=
  { Name := "c", Ready := true, RestartCount := 0,
    State := ContainerState.running }

def basePod : K8sPod :=
  { Name := "p", Namespace := "default", Phase := "Running",
    ContainerStatuses := [healthyStatus], SpecContainers := ["c"],
    DeletionTimestamp := none }

def c5pod : K8sPod :=
  { basePod with Phase := "Pending", ContainerStatuses := [crashStatus] }

/-- A container status that fires none of the scan's rules — ready,
restart-free, and running (or with no state pointer set).  The scan walks
past such containers. -/
def containerUntriggered (cs : ContainerStatus) : Prop :=
  cs.Ready = true ∧ ¬ 0 < cs.RestartCount ∧
    (cs.State = ContainerState.running ∨ cs.State = ContainerState.noState)

/-- The fatal waiting reasons of the source's red check. -/
def isFatalReason (reason : String) : Prop :=
  reason = "CrashLoopBackOff" ∨ reason = "Error" ∨
    reason = "ImagePullBackOff" ∨ reason = "ErrImagePull"

/-- The container scan walks past any run of non-triggering containers:
the first triggering container (if any) decides the indicator. -/
theorem scanContainerStatuses_append (pre l : List ContainerStatus)
    (h : ∀ c ∈ pre, containerUntriggered c) :
    scanContainerStatuses (pre ++ l) = scanContainerStatuses l := by
  induction pre with
  | nil => rfl
  | cons c cs ih =>
      obtain ⟨hr, hrc, hs⟩ := h c (List.mem_cons_self _ _)
      have htl := fun d hd => h d (List.mem_cons_of_mem _ hd)
      rcases hs with hs | hs <;>
        simp [scanContainerStatuses, hr, hrc, hs, ih htl]

/-- If every container status fails to trigger, the container scan falls
through without deciding. -/
theorem scanContainerStatuses_healthy (l : List ContainerStatus)
    (h : ∀ cs ∈ l, containerUntriggered cs) :
    scanContainerStatuses l = none := by
  simpa using scanContainerStatuses_append l [] h

/-- C5 counterexample: a pod with phase `Pending` whose only container is
`Waiting` with reason `CrashLoopBackOff` classifies as Warning (yellow),
not Error (red) — the `Pending` check returns before the container scan,
contradicting the claimed rule order. -/
theorem C5_counterexample :
    c5pod.Phase = "Pending" ∧
    crashStatus ∈ c5pod.ContainerStatuses ∧
    crashStatus.Ready = false ∧
    crashStatus.State = ContainerState.waiting "CrashLoopBackOff" ∧
    GetPodIndicator c5pod = PodIndicatorYellow ∧
    PodIndicatorYellow ≠ PodIndicatorRed := by
  decide

/-- C5 amended: the classifier's first-match rule order is: phase
`Failed` → Error (regardless of containers and restarts); otherwise phase
`Pending` → Warning (the container scan is *not* reached, so even a
container Waiting on a fatal reason yields Warning); otherwise the
containers are scanned in order past any non-triggering (ready,
restart-free, running) ones, and the first triggering container decides:
not ready and Waiting with reason in {CrashLoopBackOff, Error,
ImagePullBackOff, ErrImagePull} → Error; not ready otherwise (Waiting on
a non-fatal reason, or not Waiting at all) → Warning; ready with
restarts → Warning; ready and Waiting → Warning; ready and Terminated →
Error; and a pod in neither phase with at least one container, all of
them non-triggering, classifies OK (green). -/
theorem C5_classifier_rule_order (pod : K8sPod) :
    (pod.Phase = "Failed" → GetPodIndicator pod = PodIndicatorRed) ∧
    (pod.Phase = "Pending" → GetPodIndicator pod = PodIndicatorYellow) ∧
    (∀ pre cs rest, pod.Phase ≠ "Failed" → pod.Phase ≠ "Pending" →
      pod.ContainerStatuses = pre ++ cs :: rest →
      (∀ c ∈ pre, containerUntriggered c) →
      ((∀ reason, cs.Ready = false →
          cs.State = ContainerState.waiting reason → isFatalReason reason →
          GetPodIndicator pod = PodIndicatorRed) ∧
       (∀ reason, cs.Ready = false →
          cs.State = ContainerState.waiting reason →
          ¬ isFatalReason reason →
          GetPodIndicator pod = PodIndicatorYellow) ∧
       (cs.Ready = false →
          (∀ reason, cs.State ≠ ContainerState.waiting reason) →
          GetPodIndicator pod = PodIndicatorYellow) ∧
       (cs.Ready = true → 0 < cs.RestartCount →
          GetPodIndicator pod = PodIndicatorYellow) ∧
       (∀ reason, cs.Ready = true → ¬ 0 < cs.RestartCount →
          cs.State = ContainerState.waiting reason →
          GetPodIndicator pod = PodIndicatorYellow) ∧
       (∀ reason, cs.Ready = true → ¬ 0 < cs.RestartCount →
          cs.State = ContainerState.terminated reason →
          GetPodIndicator pod = PodIndicatorRed))) ∧
    (pod.Phase ≠ "Failed" → pod.Phase ≠ "Pending" →
      pod.ContainerStatuses ≠ [] →
      (∀ cs ∈ pod.ContainerStatuses, containerUntriggered cs) →
      GetPodIndicator pod = PodIndicatorGreen) := by
  refine ⟨?_, ?_, ?_, ?_⟩
  · intro h
    simp [GetPodIndicator, h]
  · intro h
    have hf : pod.Phase ≠ "Failed" := by
      rw [h]
      decide
    simp [GetPodIndicator, hf, h]
  · intro pre cs rest hf hp hcs hpre
    have hwalk : scanContainerStatuses pod.ContainerStatuses =
        scanContainerStatuses (cs :: rest) := by
      rw [hcs, scanContainerStatuses_append pre _ hpre]
    refine ⟨?_, ?_, ?_, ?_, ?_, ?_⟩
    · intro reason hready hstate hfatal
      have hscan : scanContainerStatuses (cs :: rest) =
          some PodIndicatorRed := by
        rcases hfatal with rfl | rfl | rfl | rfl <;>
          simp [scanContainerStatuses, hready, hstate]
      simp [GetPodIndicator, hf, hp, hwalk, hscan]
    · intro reason hready hstate hnf
      simp only [isFatalReason] at hnf
      have hscan : scanContainerStatuses (cs :: rest) =
          some PodIndicatorYellow := by
        simp [scanContainerStatuses, hready, hstate, hnf]
      simp [GetPodIndicator, hf, hp, hwalk, hscan]
    · intro hready hnw
      have hscan : scanContainerStatuses (cs :: rest) =
          some PodIndicatorYellow := by
        cases hst : cs.State with
        | running => simp [scanContainerStatuses, hready, hst]
        | waiting r => exact absurd hst (hnw r)
        | terminated r => simp [scanContainerStatuses, hready, hst]
        | noState => simp [scanContainerStatuses, hready, hst]
      simp [GetPodIndicator, hf, hp, hwalk, hscan]
    · intro hready hrc
      have hscan : scanContainerStatuses (cs :: rest) =
          some PodIndicatorYellow := by
        simp [scanContainerStatuses, hready, hrc]
      simp [GetPodIndicator, hf, hp, hwalk, hscan]
    · intro reason hready hrc hstate
      have hscan : scanContainerStatuses (cs :: rest) =
          some PodIndicatorYellow := by
        simp [scanContainerStatuses, hready, hrc, hstate]
      simp [GetPodIndicator, hf, hp, hwalk, hscan]
    · intro reason hready hrc hstate
      have hscan : scanContainerStatuses (cs :: rest) =
          some PodIndicatorRed := by
        simp [scanContainerStatuses, hready, hrc, hstate]
      simp [GetPodIndicator, hf, hp, hwalk, hscan]
  · intro hf hp hne hall
    have hscan := scanContainerStatuses_healthy pod.ContainerStatuses hall
    simp [GetPodIndicator, hf, hp, hscan, hne]

theorem healthyStatus_untriggered : containerUntriggered healthyStatus :=
  ⟨rfl, by decide, Or.inl rfl⟩

/-- A ready container that was terminated (e.g. ran to completion). -/
def termStatus : ContainerStatus :=
  { Name := "c", Ready := true, RestartCount := 0,
    State := ContainerState.terminated "Completed" }

/-- A not-ready container with no state pointer set. -/
def notReadyStatus : ContainerStatus :=
  { Name := "c", Ready := false, RestartCount := 0,
    State := ContainerState.noState }

/-- A ready, running container that has restarted. -/
def restartStatus : ContainerStatus :=
  { Name := "c", Ready := true, RestartCount := 3,
    State := ContainerState.running }

/-- C5 amended, exercised concretely: a Failed pod is red; a Pending pod
with a CrashLoopBackOff container is yellow; a Running pod whose second
container (past a healthy first one) waits on CrashLoopBackOff is red;
likewise a ready-Terminated second container is red, a not-ready second
container is yellow, a restarted container is yellow; and a healthy
Running pod is green. -/
theorem C5_classifier_rule_order_witness :
    GetPodIndicator { basePod with Phase := "Failed" } = PodIndicatorRed ∧
    GetPodIndicator c5pod = PodIndicatorYellow ∧
    GetPodIndicator { basePod with
        ContainerStatuses := [healthyStatus, crashStatus] } =
      PodIndicatorRed ∧
    GetPodIndicator { basePod with
        ContainerStatuses := [healthyStatus, termStatus] } =
      PodIndicatorRed ∧
    GetPodIndicator { basePod with
        ContainerStatuses := [healthyStatus, notReadyStatus] } =
      PodIndicatorYellow ∧
    GetPodIndicator { basePod with ContainerStatuses := [restartStatus] } =
      PodIndicatorYellow ∧
    GetPodIndicator basePod = PodIndicatorGreen := by
  have hpre1 : ∀ c ∈ [healthyStatus], containerUntriggered c := by
    intro c hc
    rw [List.mem_singleton] at hc
    subst hc
    exact healthyStatus_untriggered
  have hpre0 : ∀ c ∈ ([] : List ContainerStatus), containerUntriggered c := by
    intro c hc
    cases hc
  refine ⟨(C5_classifier_rule_order _).1 rfl,
    (C5_classifier_rule_order c5pod).2.1 rfl, ?_, ?_, ?_, ?_,
    (C5_classifier_rule_order basePod).2.2.2 (by decide) (by decide)
      (by decide)
      (by intro c hc
          exact hpre1 c (by simpa [basePod] using hc))⟩
  · exact ((C5_classifier_rule_order _).2.2.1 [healthyStatus] crashStatus []
      (by decide) (by decide) rfl hpre1).1 "CrashLoopBackOff" rfl rfl
      (Or.inl rfl)
  · exact ((C5_classifier_rule_order _).2.2.1 [healthyStatus] termStatus []
      (by decide) (by decide) rfl hpre1).2.2.2.2.2 "Completed" rfl
      (by decide) rfl
  · exact ((C5_classifier_rule_order _).2.2.1 [healthyStatus] notReadyStatus
      [] (by decide) (by decide) rfl hpre1).2.2.1 rfl
      (fun reason h => ContainerState.noConfusion h)
  · exact ((C5_classifier_rule_order _).2.2.1 [] restartStatus []
      (by decide) (by decide) rfl hpre0).2.2.2.1 rfl (by decide)

/-! ## View filter — `filterAndTransformData` (`cmd/k8s_data_base.go`)

`FilterCriteria`'s namespace sets are Go `map[string]bool`; a namespace
is "in" the set when it is bound to `true` (`len` counts all bindings,
including `false` ones, exactly as in Go). -/

structure FilterCriteria where
  IncludeNamespaces : List (String × Bool)
  ExcludeNamespaces : List (String × Bool)
  SearchQuery : String
deriving DecidableEq, Repr

structure RawNodeData where
  Node : K8sNode
  Pods : List (String × K8sPod)
deriving DecidableEq, Repr

/-- Node readiness: the first condition of type `Ready` decides (the
source breaks out of the loop at it); no such condition means
`NotReady`. -/
def nodeReadyStatus : List K8sNodeCondition → String
  | [] => "NotReady"
  | c :: rest =>
      if c.ConditionType = "Ready" then
        if c.Status = "True" then "Ready" else "NotReady"
      else nodeReadyStatus rest

/-- `FormatDuration` from `cmd/nodes.go`, taking the duration in whole
minutes (the source rounds to `time.Minute` first; its float divisions
are exact on whole minutes and are modelled as integer division). -/
def FormatDuration (mins : Int) : String :=
  let days := mins / (60 * 24)
  let hours := (mins / 60) % 24
  let minutes := mins % 60
  if 10 ≤ days then toString days ++ "d"
  else if 0 < days then
    if hours = 0 then toString days ++ "d"
    else toString days ++ "d" ++ toString hours ++ "h"
  else if minutes = 0 then toString hours ++ "h"
  else toString hours ++ "h" ++ toString minutes ++ "m"

/-- The namespace pass, exactly the two `continue` checks of the source:
exclusion is tested first, then a non-empty include set must contain the
namespace. -/
def namespaceKept (criteria : FilterCriteria) (ns : String) : Bool :=
  if goLookupBool criteria.ExcludeNamespaces ns then false
  else if 0 < criteria.IncludeNamespaces.length ∧
      ¬ goLookupBool criteria.IncludeNamespaces ns = true then false
  else true

/-- The search pass: an empty query keeps everything, otherwise the
lower-cased pod name must contain the lower-cased query. -/
def searchKept (criteria : FilterCriteria) (podName : String) : Bool :=
  if criteria.SearchQuery = "" then true
  else goContains podName.toLower criteria.SearchQuery.toLower

/-- Both filter passes, applied to one `(podName, pod)` map entry. -/
def podKeptB (criteria : FilterCriteria) (p : String × K8sPod) : Bool :=
  namespaceKept criteria p.2.Namespace && searchKept criteria p.1

/-- `podsByNode[nodeName][ns] = append(old, indicator)` with the
make-if-missing initialization of the source. -/
def appendIndicator (m : List (String × List String)) (ns ind : String) :
    List (String × List String) :=
  match goLookup m ns with
  | none => goInsert m ns [ind]
  | some l => goInsert m ns (l ++ [ind])

/-- The per-node pod loop of `filterAndTransformData`: accumulates the
filtered pod count, the filtered `Pods` map, and the per-namespace
indicator lists, in iteration order. -/
def processPodsLoop (criteria : FilterCriteria)
    (acc : Nat × List (String × PodInfo) × List (String × List String)) :
    List (String × K8sPod) →
      Nat × List (String × PodInfo) × List (String × List String)
  | [] => acc
  | (podName, pod) :: rest =>
      if namespaceKept criteria pod.Namespace = false then
        processPodsLoop criteria acc rest
      else if searchKept criteria podName = false then
        processPodsLoop criteria acc rest
      else
        processPodsLoop criteria
          (acc.1 + 1,
           goInsert acc.2.1 podName (GetPodInfo pod),
           appendIndicator acc.2.2 pod.Namespace (GetPodIndicator pod))
          rest

/-- Body of `filterAndTransformData` for one node: pod filtering, the
pod-count display string, per-namespace indicator sorting, and the joined
`PodIndicators` string (joined in the namespace map's iteration
order). -/
def processNode (criteria : FilterCriteria) (now : Int) (nodeName : String)
    (raw : RawNodeData) : NodeData × List (String × List String) :=
  let res := processPodsLoop criteria (0, [], []) raw.Pods
  let sortedByNs := res.2.2.map (fun p => (p.1, SortPodIndicators p.2))
  ({ Name := nodeName,
     Status := nodeReadyStatus raw.Node.Conditions,
     Version := raw.Node.KubeletVersion,
     Age := FormatDuration (now - raw.Node.CreationTimestamp),
     PodCount :=
       if res.1 = raw.Pods.length then toString res.1
       else toString res.1 ++ " (" ++ toString raw.Pods.length ++ ")",
     PodIndicators :=
       String.join (sortedByNs.map (fun p => String.join p.2)),
     Pods := res.2.1,
     TotalPods := (raw.Pods.length : Int) },
   sortedByNs)

/-- `filterAndTransformData`: the projection over all nodes, in the node
map's iteration order. -/
def filterAndTransformData (rawData : List (String × RawNodeData))
    (criteria : FilterCriteria) (now : Int) :
    List (String × NodeData) × List (String × List (String × List String)) :=
  rawData.foldl
    (fun acc p =>
      (goInsert acc.1 p.1 (processNode criteria now p.1 p.2).1,
       goInsert acc.2 p.1 (processNode criteria now p.1 p.2).2))
    ([], [])

/-! ### View-filter lemmas -/

theorem goInsert_append {α : Type} {m : List (String × α)} {k : String}
    (hk : k ∉ m.map Prod.fst) (v : α) :
    goInsert m k v = m ++ [(k, v)] := by
  induction m with
  | nil => rfl
  | cons hd tl ih =>
      obtain ⟨k', v'⟩ := hd
      have hne : k' ≠ k := by
        intro h
        exact hk (by simp [h])
      have htl : k ∉ tl.map Prod.fst := fun h => hk (by simp [h])
      simp [goInsert, hne, ih htl]

theorem processPodsLoop_count (criteria : FilterCriteria) :
    ∀ (l : List (String × K8sPod))
      (acc : Nat × List (String × PodInfo) × List (String × List String)),
      (processPodsLoop criteria acc l).1 =
        acc.1 + l.countP (podKeptB criteria) := by
  intro l
  induction l with
  | nil => intro acc; simp [processPodsLoop]
  | cons hd tl ih =>
      intro acc
      obtain ⟨podName, pod⟩ := hd
      by_cases hn : namespaceKept criteria pod.Namespace
      · by_cases hs : searchKept criteria podName
        · simp [processPodsLoop, hn, hs, ih, podKeptB, List.countP_cons]
          omega
        · simp only [Bool.not_eq_true] at hs
          simp [processPodsLoop, hn, hs, ih, podKeptB, List.countP_cons]
      · simp only [Bool.not_eq_true] at hn
        simp [processPodsLoop, hn, ih, podKeptB, List.countP_cons]

theorem processPodsLoop_pods (criteria : FilterCriteria) :
    ∀ (l : List (String × K8sPod)) (c : Nat)
      (m : List (String × PodInfo)) (b : List (String × List String)),
      keysUnique l →
      (∀ k ∈ l.map Prod.fst, k ∉ m.map Prod.fst) →
      (processPodsLoop criteria (c, m, b) l).2.1 =
        m ++ (l.filter (podKeptB criteria)).map
          (fun p => (p.1, GetPodInfo p.2)) := by
  intro l
  induction l with
  | nil => intros; simp [processPodsLoop]
  | cons hd tl ih =>
      intro c m b hwf hdisj
      obtain ⟨podName, pod⟩ := hd
      have hwf_tl : keysUnique tl := (List.nodup_cons.mp hwf).2
      have hhd_not : podName ∉ tl.map Prod.fst := (List.nodup_cons.mp hwf).1
      by_cases hn : namespaceKept criteria pod.Namespace
      · by_cases hs : searchKept criteria podName
        · have hfresh : podName ∉ m.map Prod.fst := hdisj podName (by simp)
          have hdisj' : ∀ k ∈ tl.map Prod.fst,
              k ∉ (m ++ [(podName, GetPodInfo pod)]).map Prod.fst := by
            intro k hk
            simp only [List.map_append, List.mem_append]
            rintro (hmem | hmem)
            · exact hdisj k (by simp [hk]) hmem
            · simp at hmem
              subst hmem
              exact hhd_not hk
          have hstep : processPodsLoop criteria (c, m, b)
              ((podName, pod) :: tl) =
              processPodsLoop criteria
                (c + 1, goInsert m podName (GetPodInfo pod),
                 appendIndicator b pod.Namespace (GetPodIndicator pod))
                tl := by
            simp [processPodsLoop, hn, hs]
          rw [hstep, goInsert_append hfresh, ih _ _ _ hwf_tl hdisj']
          have hkept : podKeptB criteria (podName, pod) = true := by
            simp [podKeptB, hn, hs]
          simp [List.filter_cons, hkept]
        · simp only [Bool.not_eq_true] at hs
          have hstep : processPodsLoop criteria (c, m, b)
              ((podName, pod) :: tl) =
              processPodsLoop criteria (c, m, b) tl := by
            simp [processPodsLoop, hs]
          have hdisj' : ∀ k ∈ tl.map Prod.fst, k ∉ m.map Prod.fst :=
            fun k hk => hdisj k (by simp [hk])
          have hdrop : podKeptB criteria (podName, pod) = false := by
            simp [podKeptB, hs]
          rw [hstep, ih _ _ _ hwf_tl hdisj']
          simp [List.filter_cons, hdrop]
      · simp only [Bool.not_eq_true] at hn
        have hstep : processPodsLoop criteria (c, m, b)
            ((podName, pod) :: tl) =
            processPodsLoop criteria (c, m, b) tl := by
          simp [processPodsLoop, hn]
        have hdisj' : ∀ k ∈ tl.map Prod.fst, k ∉ m.map Prod.fst :=
          fun k hk => hdisj k (by simp [hk])
        have hdrop : podKeptB criteria (podName, pod) = false := by
          simp [podKeptB, hn]
        rw [hstep, ih _ _ _ hwf_tl hdisj']
        simp [List.filter_cons, hdrop]

theorem processNode_PodCount (criteria : FilterCriteria) (now : Int)
    (nodeName : String) (raw : RawNodeData) :
    (processNode criteria now nodeName raw).1.PodCount =
      (if raw.Pods.countP (podKeptB criteria) = raw.Pods.length
       then toString (raw.Pods.countP (podKeptB criteria))
       else toString (raw.Pods.countP (podKeptB criteria)) ++ " (" ++
         toString raw.Pods.length ++ ")") := by
  have hc : (processPodsLoop criteria (0, [], []) raw.Pods).1 =
      raw.Pods.countP (podKeptB criteria) := by
    simpa using processPodsLoop_count criteria raw.Pods (0, [], [])
  simp only [processNode]
  rw [hc]

theorem processNode_Pods (criteria : FilterCriteria) (now : Int)
    (nodeName : String) (raw : RawNodeData) (h : keysUnique raw.Pods) :
    (processNode criteria now nodeName raw).1.Pods =
      (raw.Pods.filter (podKeptB criteria)).map
        (fun p => (p.1, GetPodInfo p.2)) := by
  simp [processNode]
  simpa using processPodsLoop_pods criteria raw.Pods 0 [] [] h (by simp)

/-! ### Claim theorems for the namespace pass (C2) -/

/-- The namespace pass as the spec's normative formula words it: kept iff
`namespace ∉ excludeNamespaces` and (`includeNamespaces` is empty or
`namespace ∈ includeNamespaces`). -/
def spec_namespaceKept (criteria : FilterCriteria) (ns : String) : Bool :=
  !goLookupBool criteria.ExcludeNamespaces ns &&
    (criteria.IncludeNamespaces.isEmpty ||
     goLookupBool criteria.IncludeNamespaces ns)

def plainNode : K8sNode :=
  { Name := "n", Conditions := [], KubeletVersion := "v1",
    CreationTimestamp := 0 }

def c2criteria : FilterCriteria :=
  { IncludeNamespaces := [("dup", true)],
    ExcludeNamespaces := [("dup", true)], SearchQuery := "" }

def c2raw : RawNodeData :=
  { Node := plainNode, Pods := [("p", { basePod with Namespace := "dup" })] }

/-- C2 counterexample: namespace `"dup"` is a member of the non-empty
include set yet the pod is dropped, because the exclude check runs first
— a non-empty include membership does *not* dominate the exclude set. -/
theorem C2_counterexample :
    c2criteria.IncludeNamespaces ≠ [] ∧
    goLookupBool c2criteria.IncludeNamespaces "dup" = true ∧
    namespaceKept c2criteria "dup" = false ∧
    (processNode c2criteria 0 "n" c2raw).1.Pods = [] ∧
    (processNode c2criteria 0 "n" c2raw).1.PodCount = "0 (1)" := by
  decide

/-- C2 amended: the namespace pass keeps a pod iff its namespace is not
excluded AND (the include set is empty OR the namespace is included) —
the spec's own normative formula, under which a namespace in both sets is
dropped (exclude wins ties, not include). -/
theorem C2_namespace_pass_formula (criteria : FilterCriteria) (ns : String) :
    namespaceKept criteria ns = spec_namespaceKept criteria ns := by
  unfold namespaceKept spec_namespaceKept
  cases h1 : goLookupBool criteria.ExcludeNamespaces ns
  · cases h2 : goLookupBool criteria.IncludeNamespaces ns
    · cases hi : criteria.IncludeNamespaces <;> simp [h2, hi]
    · cases hi : criteria.IncludeNamespaces <;> simp [h2, hi]
  · simp

/-! ### Claim theorems for the view-filter projection (C4) -/

def c4podGreen : K8sPod :=
  { Name := "pa", Namespace := "nsa", Phase := "Running",
    ContainerStatuses := [healthyStatus], SpecContainers := ["c"],
    DeletionTimestamp := none }

def c4podRed : K8sPod :=
  { Name := "pb", Namespace := "nsb", Phase := "Failed",
    ContainerStatuses := [], SpecContainers := [],
    DeletionTimestamp := none }

def c4criteria : FilterCriteria :=
  { IncludeNamespaces := [], ExcludeNamespaces := [], SearchQuery := "" }

def c4rawA : RawNodeData :=
  { Node := plainNode, Pods := [("pa", c4podGreen), ("pb", c4podRed)] }

def c4rawB : RawNodeData :=
  { Node := plainNode, Pods := [("pb", c4podRed), ("pa", c4podGreen)] }

/-- C4 counterexample: `c4rawA` and `c4rawB` are the same pod map (their
entry lists are permutations), i.e. the same snapshot argument; yet the
projection's per-node `PodIndicators` string differs between the two
iteration orders, because it is joined in the namespace map's iteration
order.  Two calls on the same map therefore need not return equal
`PodIndicators` strings. -/
theorem C4_counterexample :
    c4rawA.Node = c4rawB.Node ∧
    c4rawA.Pods.Perm c4rawB.Pods ∧
    (processNode c4criteria 0 "n" c4rawA).1.PodIndicators ≠
      (processNode c4criteria 0 "n" c4rawB).1.PodIndicators := by
  refine ⟨rfl, ?_, by decide⟩
  exact List.Perm.swap _ _ _

/-- C4 amended: the projection is a pure function of the snapshot, the
criteria and the clock, and is iteration-order independent in everything
except the `PodIndicators` display string: for two iteration orders of
the same pod map, the projected node's `Name`, `Status`, `Version`,
`Age`, `TotalPods` and pod-count string are equal and its filtered `Pods`
maps are permutations of each other (equal as maps). -/
theorem C4_projection_order_independent (nodeRec : K8sNode)
    (podsA podsB : List (String × K8sPod)) (criteria : FilterCriteria)
    (now : Int) (nodeName : String) (hperm : podsA.Perm podsB)
    (hA : keysUnique podsA) :
    (processNode criteria now nodeName ⟨nodeRec, podsA⟩).1.Name =
      (processNode criteria now nodeName ⟨nodeRec, podsB⟩).1.Name ∧
    (processNode criteria now nodeName ⟨nodeRec, podsA⟩).1.Status =
      (processNode criteria now nodeName ⟨nodeRec, podsB⟩).1.Status ∧
    (processNode criteria now nodeName ⟨nodeRec, podsA⟩).1.Version =
      (processNode criteria now nodeName ⟨nodeRec, podsB⟩).1.Version ∧
    (processNode criteria now nodeName ⟨nodeRec, podsA⟩).1.Age =
      (processNode criteria now nodeName ⟨nodeRec, podsB⟩).1.Age ∧
    (processNode criteria now nodeName ⟨nodeRec, podsA⟩).1.TotalPods =
      (processNode criteria now nodeName ⟨nodeRec, podsB⟩).1.TotalPods ∧
    (processNode criteria now nodeName ⟨nodeRec, podsA⟩).1.PodCount =
      (processNode criteria now nodeName ⟨nodeRec, podsB⟩).1.PodCount ∧
    ((processNode criteria now nodeName ⟨nodeRec, podsA⟩).1.Pods).Perm
      ((processNode criteria now nodeName ⟨nodeRec, podsB⟩).1.Pods) := by
  have hB : keysUnique podsB := ((hperm.map Prod.fst).nodup_iff).mp hA
  have hcount : podsA.countP (podKeptB criteria) =
      podsB.countP (podKeptB criteria) := hperm.countP_eq _
  have hlen : podsA.length = podsB.length := hperm.length_eq
  refine ⟨rfl, rfl, rfl, rfl, ?_, ?_, ?_⟩
  · simp [processNode, hlen]
  · rw [processNode_PodCount, processNode_PodCount]
    simp only [hcount, hlen]
  · rw [processNode_Pods _ _ _ _ hA, processNode_Pods _ _ _ _ hB]
    exact (hperm.filter _).map _

/-- C4 amended, exercised on the counterexample pair: the pod-count
strings agree and the filtered pod maps are permutations even though the
`PodIndicators` strings differ. -/
theorem C4_projection_order_independent_witness :
    (processNode c4criteria 0 "n" c4rawA).1.PodCount =
      (processNode c4criteria 0 "n" c4rawB).1.PodCount ∧
    ((processNode c4criteria 0 "n" c4rawA).1.Pods).Perm
      ((processNode c4criteria 0 "n" c4rawB).1.Pods) :=
  ⟨(C4_projection_order_independent plainNode c4rawA.Pods c4rawB.Pods
      c4criteria 0 "n" (List.Perm.swap _ _ _) (by unfold keysUnique; decide)).2.2.2.2.2.1,
   (C4_projection_order_independent plainNode c4rawA.Pods c4rawB.Pods
      c4criteria 0 "n" (List.Perm.swap _ _ _) (by unfold keysUnique; decide)).2.2.2.2.2.2⟩

/-! ## Refresh coordinator — the `App` event loop

Models the channel-based `App` (the iteration with `refreshChan` and
`TriggerRefresh`): a buffered channel of size one (`refreshPending`), the
`Run` handler that consumes it and calls `refreshData`, and the
background retry loop.  Execution is serialized: each event runs to
completion, so the `isRefreshing` compare-and-swap in `refreshData`
always succeeds and is elided.  Counters record the externally visible
calls: fetches (`provider.UpdateNodeData`), `ShowErrorMessage` and
`DismissErrorMessage`. -/

structure AppState where
  showingDetails : Bool
  hasError : Bool
  refreshPending : Bool
  fetchCount : Nat
  errorShownCount : Nat
  errorClearedCount : Nat
deriving DecidableEq, Repr

/-- Outcome of one `provider.UpdateNodeData` call: success with the
number of nodes returned, or an error. -/
inductive FetchOutcome where
  | ok (nodeCount : Nat)
  | err
deriving DecidableEq, Repr

/-- One step of the serialized event loop: a ticker tick (the handler
forwards it into `refreshChan`), a `TriggerRefresh` call (non-blocking
send, dropped when the buffer is full), the handler consuming
`refreshChan` and running `refreshData` whose fetch — if reached — has
the given outcome, or the 5s retry ticker firing with a fetch of the
given outcome. -/
inductive AppEvent where
  | tick
  | trigger
  | handleRefresh (r : FetchOutcome)
  | retryTick (r : FetchOutcome)
deriving DecidableEq, Repr

/-- `App.refreshData`: skips (returning nil) while `showingDetails`;
otherwise fetches.  Returns the state after the call and whether the
call returned an error. -/
def refreshData (s : AppState) (r : FetchOutcome) : AppState × Bool :=
  if s.showingDetails then (s, false)
  else
    match r with
    | FetchOutcome.err => ({ s with fetchCount := s.fetchCount + 1 }, true)
    | FetchOutcome.ok _ => ({ s with fetchCount := s.fetchCount + 1 }, false)

/-- One transition of the coordinator. -/
def step (s : AppState) : AppEvent → AppState
  | AppEvent.tick => { s with refreshPending := true }
  | AppEvent.trigger => { s with refreshPending := true }
  | AppEvent.handleRefresh r =>
      if s.refreshPending = false then s
      else
        let res := refreshData { s with refreshPending := false } r
        if res.2 then
          -- handler: first error of an episode shows the indicator
          if res.1.hasError = false then
            { res.1 with
                hasError := true,
                errorShownCount := res.1.errorShownCount + 1 }
          else res.1
        else res.1
  | AppEvent.retryTick r =>
      if s.hasError = false then s  -- retry loop exits when no error
      else
        match r with
        | FetchOutcome.err => { s with fetchCount := s.fetchCount + 1 }
        | FetchOutcome.ok n =>
            if 0 < n then
              { s with
                  fetchCount := s.fetchCount + 1,
                  hasError := false,
                  errorClearedCount := s.errorClearedCount + 1 }
            else { s with fetchCount := s.fetchCount + 1 }

def runEvents (s : AppState) (events : List AppEvent) : AppState :=
  events.foldl step s

/-- The state right after a successful startup. -/
def initialAppState : AppState :=
  { showingDetails := false, hasError := false, refreshPending := false,
    fetchCount := 0, errorShownCount := 0, errorClearedCount := 0 }

def suppressedState : AppState :=
  { initialAppState with showingDetails := true }

/-! ### Claim theorems for the refresh coordinator (C7, C8) -/

/-- C7 counterexample: with the details view open (suppress flag set), a
manual `TriggerRefresh` followed by the handler consuming it performs no
fetch — the manual path funnels into the same `refreshData`, which skips
while `showingDetails` is set, so manual triggers do *not* always
proceed. -/
theorem C7_counterexample :
    suppressedState.showingDetails = true ∧
    (runEvents suppressedState
        [AppEvent.trigger,
         AppEvent.handleRefresh (FetchOutcome.ok 1)]).fetchCount = 0 := by
  decide

/-- C7 amended: while the suppress flag (`showingDetails`) is set,
neither a scheduled tick nor a manual `TriggerRefresh` leads to a fetch:
both only mark a refresh pending in the coalescing channel, and
`refreshData` drops the request without fetching. -/
theorem C7_suppressed_skips_both (s : AppState) (r : FetchOutcome)
    (h : s.showingDetails = true) :
    (runEvents s [AppEvent.tick, AppEvent.handleRefresh r]).fetchCount =
      s.fetchCount ∧
    (runEvents s [AppEvent.trigger, AppEvent.handleRefresh r]).fetchCount =
      s.fetchCount := by
  constructor <;> simp [runEvents, step, refreshData, h]

theorem C7_suppressed_skips_both_witness :
    (runEvents suppressedState
        [AppEvent.tick, AppEvent.handleRefresh FetchOutcome.err]).fetchCount =
      suppressedState.fetchCount ∧
    (runEvents suppressedState
        [AppEvent.trigger,
         AppEvent.handleRefresh FetchOutcome.err]).fetchCount =
      suppressedState.fetchCount :=
  C7_suppressed_skips_both suppressedState FetchOutcome.err rfl

/-- C8 counterexample: from the clean state, one failed scheduled refresh
shows the error; a subsequent *scheduled* refresh that succeeds with a
non-empty dataset (2 nodes, second fetch really performed) dismisses
nothing — only the background retry loop clears the error indicator, so
the first subsequent successful non-empty fetch does not produce an
`onErrorCleared` call. -/
theorem C8_counterexample :
    (runEvents initialAppState
        [AppEvent.tick, AppEvent.handleRefresh FetchOutcome.err,
         AppEvent.tick, AppEvent.handleRefresh (FetchOutcome.ok 2)]) =
      { showingDetails := false, hasError := true, refreshPending := false,
        fetchCount := 2, errorShownCount := 1,
        errorClearedCount := 0 } := by
  decide

/-- Any mix of further failed attempts, empty-success retries, ticks and
triggers leaves an established error episode's flags and counters
untouched. -/
theorem errorEpisode_invariant (evs : List AppEvent)
    (hevs : ∀ e ∈ evs, e = AppEvent.tick ∨ e = AppEvent.trigger ∨
      e = AppEvent.handleRefresh FetchOutcome.err ∨
      e = AppEvent.retryTick FetchOutcome.err ∨
      e = AppEvent.retryTick (FetchOutcome.ok 0)) :
    ∀ s : AppState, s.hasError = true →
      (runEvents s evs).hasError = true ∧
      (runEvents s evs).errorShownCount = s.errorShownCount ∧
      (runEvents s evs).errorClearedCount = s.errorClearedCount := by
  induction evs with
  | nil => intro s hs; exact ⟨hs, rfl, rfl⟩
  | cons e rest ih =>
      intro s hs
      have hrest := fun e he => hevs e (List.mem_cons_of_mem _ he)
      have hstep : (step s e).hasError = true ∧
          (step s e).errorShownCount = s.errorShownCount ∧
          (step s e).errorClearedCount = s.errorClearedCount := by
        rcases hevs e (List.mem_cons_self _ _) with rfl | rfl | rfl | rfl | rfl
        · simp [step, hs]
        · simp [step, hs]
        · by_cases hp : s.refreshPending
          · by_cases hd : s.showingDetails <;>
              simp [step, refreshData, hp, hd, hs]
          · simp only [Bool.not_eq_true] at hp
            simp [step, hp, hs]
        · simp [step, hs]
        · simp [step, hs]
      have := ih hrest (step s e) hstep.1
      refine ⟨this.1, ?_, ?_⟩
      · rw [show runEvents s (e :: rest) = runEvents (step s e) rest from rfl,
          this.2.1, hstep.2.1]
      · rw [show runEvents s (e :: rest) = runEvents (step s e) rest from rfl,
          this.2.2, hstep.2.2]

/-- C8 amended: from the clean state, a first failed scheduled refresh
shows the error indicator exactly once, and any number of further failed
attempts (scheduled or retry), empty-success retries, ticks and triggers
add no further `onError` and no `onErrorCleared` calls; the first *retry*
fetch that succeeds with a non-empty dataset then clears the indicator
exactly once.  A scheduled success does not clear it (see the
counterexample), and an empty-success retry does not clear it. -/
theorem C8_single_error_episode (evs : List AppEvent) (k : Nat)
    (hevs : ∀ e ∈ evs, e = AppEvent.tick ∨ e = AppEvent.trigger ∨
      e = AppEvent.handleRefresh FetchOutcome.err ∨
      e = AppEvent.retryTick FetchOutcome.err ∨
      e = AppEvent.retryTick (FetchOutcome.ok 0)) :
    (runEvents initialAppState
        (AppEvent.tick :: AppEvent.handleRefresh FetchOutcome.err :: evs)
      ).errorShownCount = 1 ∧
    (runEvents initialAppState
        (AppEvent.tick :: AppEvent.handleRefresh FetchOutcome.err :: evs)
      ).errorClearedCount = 0 ∧
    (runEvents initialAppState
        (AppEvent.tick :: AppEvent.handleRefresh FetchOutcome.err :: evs)
      ).hasError = true ∧
    (step (runEvents initialAppState
        (AppEvent.tick :: AppEvent.handleRefresh FetchOutcome.err :: evs))
      (AppEvent.retryTick (FetchOutcome.ok (k + 1)))).errorClearedCount = 1 ∧
    (step (runEvents initialAppState
        (AppEvent.tick :: AppEvent.handleRefresh FetchOutcome.err :: evs))
      (AppEvent.retryTick (FetchOutcome.ok (k + 1)))).errorShownCount = 1 ∧
    (step (runEvents initialAppState
        (AppEvent.tick :: AppEvent.handleRefresh FetchOutcome.err :: evs))
      (AppEvent.retryTick (FetchOutcome.ok (k + 1)))).hasError = false := by
  have hfirst : runEvents initialAppState
      [AppEvent.tick, AppEvent.handleRefresh FetchOutcome.err] =
      { showingDetails := false, hasError := true, refreshPending := false,
        fetchCount := 1, errorShownCount := 1,
        errorClearedCount := 0 } := by decide
  have hsplit : runEvents initialAppState
      (AppEvent.tick :: AppEvent.handleRefresh FetchOutcome.err :: evs) =
      runEvents (runEvents initialAppState
        [AppEvent.tick, AppEvent.handleRefresh FetchOutcome.err]) evs := rfl
  rw [hsplit, hfirst]
  have hinv := errorEpisode_invariant evs hevs
    { showingDetails := false, hasError := true, refreshPending := false,
      fetchCount := 1, errorShownCount := 1, errorClearedCount := 0 } rfl
  refine ⟨by rw [hinv.2.1], by rw [hinv.2.2], hinv.1, ?_, ?_, ?_⟩
  · simp [step, hinv.1, hinv.2.2]
  · simp [step, hinv.1, hinv.2.1]
  · simp [step, hinv.1]

theorem C8_single_error_episode_witness :
    (runEvents initialAppState
        (AppEvent.tick :: AppEvent.handleRefresh FetchOutcome.err ::
          [AppEvent.tick, AppEvent.handleRefresh FetchOutcome.err,
           AppEvent.retryTick FetchOutcome.err,
           AppEvent.retryTick (FetchOutcome.ok 0)])).errorShownCount = 1 ∧
    (runEvents initialAppState
        (AppEvent.tick :: AppEvent.handleRefresh FetchOutcome.err ::
          [AppEvent.tick, AppEvent.handleRefresh FetchOutcome.err,
           AppEvent.retryTick FetchOutcome.err,
           AppEvent.retryTick (FetchOutcome.ok 0)])).errorClearedCount = 0 ∧
    (step (runEvents initialAppState
        (AppEvent.tick :: AppEvent.handleRefresh FetchOutcome.err ::
          [AppEvent.tick, AppEvent.handleRefresh FetchOutcome.err,
           AppEvent.retryTick FetchOutcome.err,
           AppEvent.retryTick (FetchOutcome.ok 0)]))
      (AppEvent.retryTick (FetchOutcome.ok 3))).errorClearedCount = 1 := by
  have h := C8_single_error_episode
    [AppEvent.tick, AppEvent.handleRefresh FetchOutcome.err,
     AppEvent.retryTick FetchOutcome.err,
     AppEvent.retryTick (FetchOutcome.ok 0)] 2 (by decide)
  exact ⟨h.1, h.2.1, h.2.2.2.1⟩

end Kubedash
